import Mathlib

/-!
Verification development for the alert-engine subsystem of the
atriva-api-backend repository.

The embedding translates the Python source into pure Lean definitions:

* `app/db/models/alert_event.py`, `app/db/crud/alert_event.py`
  → `AlertEvent`, `EventStore`, `AlertEventCrud.*`
* `app/routes/alert_engine.py` `polling_loop` body
  → `polling_loop_step`, `polling_run`, `polling_log`
* `app/routes/alert_engine.py` thread registries,
  `start_alert_polling` / `stop_alert_polling`
  → `PollRegistry`, `start_alert_polling`, `stop_alert_polling`
* `app/db/models/alert_engine.py`, `app/db/crud/alert_engine.py`
  → `AlertEngineRec`, `AppDb`, `AlertEngineCrud.*`
* route handlers in `app/routes/alert_engine.py`
  → `AlertEngineRoutes.*`

Wall-clock timestamps (`datetime.utcnow()`) are abstracted to `Nat` ticks
supplied from the outside; JSON detection payloads are abstracted to
`List String`; SQLAlchemy rows are association-list entries, with
`query(...).filter(...).first()` embedded as `List.find?` and in-place
mutation of the first matching row embedded as `updateFirst`.
-/

namespace Atriva

/-- Replace the first element satisfying `p` by its image under `f`,
mirroring the SQLAlchemy pattern `query(...).filter(...).first()`
followed by mutating that one row. -/
def updateFirst (p : α → Bool) (f : α → α) : List α → List α
  | [] => []
  | x :: xs => if p x then f x :: xs else x :: updateFirst p f xs

/-- Row of the `alert_events` table (`app/db/models/alert_event.py`).
`created_at` / `updated_at` bookkeeping columns are not modelled; no
claim mentions them. -/
structure AlertEvent where
  id : Nat
  camera_id : Nat
  alert_type : String
  start_time : Nat
  end_time : Option Nat
  ai_annotation_path : Option String
  detection_results : Option (List String)
deriving DecidableEq

/-- Payload of `AlertEventCreate` (`app/db/schemas/alert_event.py`) as the
polling worker builds it: `end_time` is left at its default `None`. -/
structure AlertEventCreate where
  camera_id : Nat
  alert_type : String
  start_time : Nat
  ai_annotation_path : Option String
  detection_results : Option (List String)
deriving DecidableEq

/-- Payload of `AlertEventUpdate` as the polling worker builds it: only
`ai_annotation_path` and `detection_results` are passed, so with
pydantic `exclude_unset=True` those are exactly the fields written. -/
structure AlertEventUpdate where
  ai_annotation_path : Option String
  detection_results : Option (List String)
deriving DecidableEq

/-- The `alert_events` table plus the autoincrement counter the database
uses to assign fresh primary keys on insert. -/
structure EventStore where
  events : List AlertEvent
  nextId : Nat
deriving DecidableEq

namespace AlertEventCrud

/-- `create_alert_event` (`app/db/crud/alert_event.py`): insert a new row
built from the payload, with a fresh autoincrement id, and return it. -/
def create_alert_event (db : EventStore) (event : AlertEventCreate) :
    EventStore × AlertEvent :=
  let db_event : AlertEvent :=
    { id := db.nextId
      camera_id := event.camera_id
      alert_type := event.alert_type
      start_time := event.start_time
      end_time := none
      ai_annotation_path := event.ai_annotation_path
      detection_results := event.detection_results }
  ({ events := db.events ++ [db_event], nextId := db.nextId + 1 }, db_event)

/-- `update_alert_event`: look up the first row with the given id; if it
exists, overwrite the fields carried by the update payload (for the
worker's payload: `ai_annotation_path` and `detection_results`). -/
def update_alert_event (db : EventStore) (event_id : Nat)
    (update : AlertEventUpdate) : EventStore × Option AlertEvent :=
  match db.events.find? (fun e => e.id == event_id) with
  | none => (db, none)
  | some e =>
    let f : AlertEvent → AlertEvent := fun ev =>
      { ev with ai_annotation_path := update.ai_annotation_path
                detection_results := update.detection_results }
    ({ db with events := updateFirst (fun ev => ev.id == event_id) f db.events },
     some (f e))

/-- `get_active_event`: first row matching the camera, the alert type and
`end_time == None`. -/
def get_active_event (db : EventStore) (camera_id : Nat) (alert_type : String) :
    Option AlertEvent :=
  db.events.find? (fun e =>
    e.camera_id == camera_id && e.alert_type == alert_type && e.end_time == none)

/-- `close_alert_event`: look up the first row with the given id; if it
exists, set its `end_time` (whether or not it was already set). -/
def close_alert_event (db : EventStore) (event_id : Nat) (end_time : Nat) :
    EventStore × Option AlertEvent :=
  match db.events.find? (fun e => e.id == event_id) with
  | none => (db, none)
  | some e =>
    ({ db with
        events := updateFirst (fun ev => ev.id == event_id)
          (fun ev => { ev with end_time := some end_time }) db.events },
     some { e with end_time := some end_time })

end AlertEventCrud

/-- One `/inference/latest-frame` response together with the wall clock of
the iteration that processes it. `ok` is `inf_resp.ok`; `frame_timestamp`
is read into a local variable by the source and never used. -/
structure PollResult where
  ok : Bool
  detections : List String
  ai_annotation_path : Option String
  frame_timestamp : Option Nat
  now : Nat
deriving DecidableEq

/-- In-memory state of one polling worker: its database session's view of
the event table plus the `active_event` local variable of `polling_loop`. -/
structure WorkerState where
  store : EventStore
  active_event : Option AlertEvent
deriving DecidableEq

/-- A write issued to the event store by one loop iteration. -/
inductive StoreWrite where
  | create (event : AlertEventCreate)
  | update (event_id : Nat) (update : AlertEventUpdate)
  | close (event_id : Nat) (end_time : Nat)
deriving DecidableEq

/-- Body of one iteration of `polling_loop`
(`app/routes/alert_engine.py`, lines 60–91): on a successful response,
if detections are present, create a new event when none is active and
update the active one otherwise; if no detections are present, close the
active event if any. A failed response does nothing. Returns the new
worker state together with the store writes the iteration issued. -/
def polling_loop_step (camera_id : Nat) (alert_type : String)
    (st : WorkerState) (p : PollResult) : WorkerState × List StoreWrite :=
  if p.ok then
    if !p.detections.isEmpty then
      match st.active_event with
      | none =>
        let event : AlertEventCreate :=
          { camera_id := camera_id
            alert_type := alert_type
            start_time := p.now
            ai_annotation_path := p.ai_annotation_path
            detection_results := some p.detections }
        let res := AlertEventCrud.create_alert_event st.store event
        ({ store := res.1, active_event := some res.2 }, [StoreWrite.create event])
      | some ae =>
        let update : AlertEventUpdate :=
          { ai_annotation_path := p.ai_annotation_path
            detection_results := some p.detections }
        let db := (AlertEventCrud.update_alert_event st.store ae.id update).1
        ({ store := db, active_event := some ae }, [StoreWrite.update ae.id update])
    else
      match st.active_event with
      | some ae =>
        let db := (AlertEventCrud.close_alert_event st.store ae.id p.now).1
        ({ store := db, active_event := none }, [StoreWrite.close ae.id p.now])
      | none => (st, [])
  else (st, [])

/-- Run the polling loop over a list of poll results (state only). -/
def polling_run (camera_id : Nat) (alert_type : String) (st : WorkerState) :
    List PollResult → WorkerState
  | [] => st
  | p :: ps =>
    polling_run camera_id alert_type (polling_loop_step camera_id alert_type st p).1 ps

/-- Run the polling loop over a list of poll results, recording every
store write tagged with the 1-based index of the iteration issuing it. -/
def polling_log (camera_id : Nat) (alert_type : String) (st : WorkerState)
    (i : Nat) : List PollResult → List (Nat × StoreWrite)
  | [] => []
  | p :: ps =>
    (polling_loop_step camera_id alert_type st p).2.map (fun w => (i, w)) ++
      polling_log camera_id alert_type (polling_loop_step camera_id alert_type st p).1
        (i + 1) ps

/-- The two module-level registries of `app/routes/alert_engine.py`:
`alert_polling_threads` (keys with a live thread handle; the handle itself
is not modelled) and `thread_control` (the per-key stop flags), both keyed
by `(camera_id, model_name)`. Python dict insertion keeps the position of
an existing key and appends a new one; deletion removes the key. -/
structure PollRegistry where
  threads : List (Nat × String)
  control : List ((Nat × String) × Bool)
deriving DecidableEq

/-- Python dict assignment `d[k] = v`: overwrite in place when the key is
present, append otherwise. -/
def dictSet (d : List ((Nat × String) × Bool)) (k : Nat × String) (v : Bool) :
    List ((Nat × String) × Bool) :=
  if d.any (fun q => q.1 == k) then
    d.map (fun q => if q.1 == k then (k, v) else q)
  else d ++ [(k, v)]

/-- `stop_alert_polling` (`app/routes/alert_engine.py`, lines 28–36): when
the key has a live thread, set its stop flag and drop the thread entry;
otherwise do nothing. -/
def stop_alert_polling (reg : PollRegistry) (camera_id : Nat)
    (model_name : String) : PollRegistry :=
  let thread_key := (camera_id, model_name)
  if reg.threads.contains thread_key then
    { threads := reg.threads.erase thread_key
      control := dictSet reg.control thread_key true }
  else reg

/-- `start_alert_polling` (`app/routes/alert_engine.py`, lines 99–107),
registry effect: when the key already has a live thread, return at once;
otherwise initialise the stop flag to `False`, record the thread handle
and start the thread. The boolean result records whether a new thread
was spawned (i.e. whether `thread.start()` was reached). -/
def start_alert_polling (reg : PollRegistry) (camera_id : Nat)
    (model_name : String) : PollRegistry × Bool :=
  let thread_key := (camera_id, model_name)
  if reg.threads.contains thread_key then (reg, false)
  else
    ({ threads := reg.threads ++ [thread_key]
       control := dictSet reg.control thread_key false }, true)

/-- Row of the `cameras` table; only the fields the alert-engine routes
consult are modelled. -/
structure CameraRec where
  id : Nat
  name : String
deriving DecidableEq

/-- Row of the `alert_engines` table (`app/db/models/alert_engine.py`).
`config` is an opaque JSON blob; `created_at` / `updated_at` are not
modelled. -/
structure AlertEngineRec where
  id : Nat
  name : String
  type : String
  config : Option String
  is_active : Bool
deriving DecidableEq

/-- Payload of `AlertEngineCreate` (`app/db/schemas/alert_engine.py`);
`is_active` defaults to `True` on the pydantic side but is carried
explicitly here. -/
structure AlertEngineCreate where
  name : String
  type : String
  config : Option String
  is_active : Bool
deriving DecidableEq

/-- Payload of `AlertEngineUpdate`: every field optional, `none` meaning
the field was not set (pydantic `exclude_unset=True` skips it). -/
structure AlertEngineUpdate where
  name : Option String
  type : Option String
  config : Option String
  is_active : Option Bool
deriving DecidableEq

/-- The relational state the alert-engine routes touch: cameras, alert
engines with their autoincrement counter, and the `camera_alert_engines`
association rows. -/
structure AppDb where
  cameras : List CameraRec
  engines : List AlertEngineRec
  camera_alert_engines : List (Nat × Nat)
  nextEngineId : Nat
deriving DecidableEq

namespace AlertEngineCrud

/-- `get_alert_engine` (`app/db/crud/alert_engine.py`): first row with the
given id. -/
def get_alert_engine (db : AppDb) (alert_engine_id : Nat) :
    Option AlertEngineRec :=
  db.engines.find? (fun e => e.id == alert_engine_id)

/-- `get_alert_engine_by_name`: first row with the given name. -/
def get_alert_engine_by_name (db : AppDb) (name : String) :
    Option AlertEngineRec :=
  db.engines.find? (fun e => e.name == name)

/-- `create_alert_engine`: insert a row built from the payload with a
fresh autoincrement id and return it. -/
def create_alert_engine (db : AppDb) (alert_engine : AlertEngineCreate) :
    AppDb × AlertEngineRec :=
  let db_alert_engine : AlertEngineRec :=
    { id := db.nextEngineId
      name := alert_engine.name
      type := alert_engine.type
      config := alert_engine.config
      is_active := alert_engine.is_active }
  ({ db with engines := db.engines ++ [db_alert_engine]
             nextEngineId := db.nextEngineId + 1 }, db_alert_engine)

/-- Apply the set fields of an `AlertEngineUpdate` to a row (the
`setattr` loop of `update_alert_engine`). -/
def applyEngineUpdate (e : AlertEngineRec) (u : AlertEngineUpdate) :
    AlertEngineRec :=
  { e with name := u.name.getD e.name
           type := u.type.getD e.type
           config := match u.config with | some c => some c | none => e.config
           is_active := u.is_active.getD e.is_active }

/-- `update_alert_engine`: look up the row; when it exists overwrite its
set fields in place and return the refreshed row. -/
def update_alert_engine (db : AppDb) (alert_engine_id : Nat)
    (alert_engine : AlertEngineUpdate) : AppDb × Option AlertEngineRec :=
  match get_alert_engine db alert_engine_id with
  | none => (db, none)
  | some e =>
    ({ db with
        engines := updateFirst (fun x => x.id == alert_engine_id)
          (fun x => applyEngineUpdate x alert_engine) db.engines },
     some (applyEngineUpdate e alert_engine))

/-- `add_alert_engine_to_camera`: when both the camera and the engine
exist, append an association row and report success; otherwise report
failure without touching anything. -/
def add_alert_engine_to_camera (db : AppDb) (camera_id : Nat)
    (alert_engine_id : Nat) : AppDb × Bool :=
  match db.cameras.find? (fun c => c.id == camera_id),
        get_alert_engine db alert_engine_id with
  | some _, some _ =>
    ({ db with camera_alert_engines :=
        db.camera_alert_engines ++ [(camera_id, alert_engine_id)] }, true)
  | _, _ => (db, false)

/-- `toggle_alert_engine_active`: look up the row; when it exists negate
its `is_active` in place and return the refreshed row. -/
def toggle_alert_engine_active (db : AppDb) (alert_engine_id : Nat) :
    AppDb × Option AlertEngineRec :=
  match get_alert_engine db alert_engine_id with
  | none => (db, none)
  | some e =>
    ({ db with
        engines := updateFirst (fun x => x.id == alert_engine_id)
          (fun x => { x with is_active := !x.is_active }) db.engines },
     some { e with is_active := !e.is_active })

end AlertEngineCrud

/-- Outcome of a route handler: a value, or an `HTTPException` with the
given status code (a 500 stands for an uncaught exception that FastAPI
turns into an internal server error). -/
inductive ApiResult (α : Type) where
  | ok (value : α)
  | httpError (status : Nat)
deriving DecidableEq

namespace AlertEngineRoutes

/-- Route `POST /api/v1/alert-engines/` (`create_alert_engine`,
`app/routes/alert_engine.py` lines 118–136): reject a duplicate name with
a 400; for type `human_detection` force `is_active` to `False` in the
payload before inserting. -/
def create_alert_engine (db : AppDb) (alert_engine : AlertEngineCreate) :
    AppDb × ApiResult AlertEngineRec :=
  if (AlertEngineCrud.get_alert_engine_by_name db alert_engine.name).isSome then
    (db, ApiResult.httpError 400)
  else
    let is_human_detection := alert_engine.type == "human_detection"
    let engine_data :=
      if is_human_detection then { alert_engine with is_active := false }
      else alert_engine
    let res := AlertEngineCrud.create_alert_engine db engine_data
    (res.1, ApiResult.ok res.2)

/-- Route `POST /api/v1/alert-engines/camera` (`add_alert_engine_to_camera`,
lines 188–213): a failed association lookup raises a 404; on success a
`human_detection` engine additionally starts polling for the camera with
model "person" and is marked active (exceptions from that block are
swallowed by the source's `try`/`except`, which a pure embedding has no
analogue of). -/
def add_alert_engine_to_camera (db : AppDb) (reg : PollRegistry)
    (camera_id : Nat) (alert_engine_id : Nat) :
    AppDb × PollRegistry × ApiResult String :=
  let res := AlertEngineCrud.add_alert_engine_to_camera db camera_id alert_engine_id
  let db₁ := res.1
  let success := res.2
  if !success then (db₁, reg, ApiResult.httpError 404)
  else
    match AlertEngineCrud.get_alert_engine db₁ alert_engine_id with
    | some engine =>
      if engine.type == "human_detection" then
        let reg₁ := (start_alert_polling reg camera_id "person").1
        let db₂ := (AlertEngineCrud.update_alert_engine db₁ engine.id
          { name := none, type := none, config := none, is_active := some true }).1
        (db₂, reg₁, ApiResult.ok "Alert engine added to camera successfully")
      else (db₁, reg, ApiResult.ok "Alert engine added to camera successfully")
    | none => (db₁, reg, ApiResult.ok "Alert engine added to camera successfully")

/-- Route `PATCH /api/v1/alert-engines/{id}/toggle`
(`toggle_alert_engine_active`, lines 229–249): a missing engine raises a
404. When the toggled engine is a `human_detection` engine that is now
inactive, the handler evaluates
`alert_engine_crud.get_cameras_by_alert_engine(db, alert_engine_id)` —
but `app/db/crud/alert_engine.py` defines no function of that name, so
the attribute access raises `AttributeError` after the flag flip has
already been committed; FastAPI surfaces the uncaught exception as an
HTTP 500 and `stop_alert_polling` is never reached, so the registries
are returned unchanged on that path. -/
def toggle_alert_engine_active (db : AppDb) (reg : PollRegistry)
    (alert_engine_id : Nat) :
    AppDb × PollRegistry × ApiResult AlertEngineRec :=
  let res := AlertEngineCrud.toggle_alert_engine_active db alert_engine_id
  let db₁ := res.1
  match res.2 with
  | none => (db₁, reg, ApiResult.httpError 404)
  | some db_alert_engine =>
    if db_alert_engine.type == "human_detection" && !db_alert_engine.is_active then
      (db₁, reg, ApiResult.httpError 500)
    else (db₁, reg, ApiResult.ok db_alert_engine)

end AlertEngineRoutes

/-! Invariant infrastructure for the polling worker. -/

/-- The row predicate of the `get_active_event` query: the row belongs to
the pair and has no end timestamp. -/
def isOpenFor (camera_id : Nat) (alert_type : String) (e : AlertEvent) : Bool :=
  e.camera_id == camera_id && e.alert_type == alert_type && e.end_time == none

/-- Number of rows currently open for a (camera, alert type) pair. -/
def countOpen (db : EventStore) (camera_id : Nat) (alert_type : String) : Nat :=
  (db.events.filter (isOpenFor camera_id alert_type)).length

/-- Induction invariant of one polling-worker run: primary keys are
bounded by the autoincrement counter and pairwise distinct, and the
`active_event` local of `polling_loop` mirrors the store — when it is
`none` no row of the pair is open, and when it is `some ae` the open rows
of the pair are exactly the unique row with id `ae.id`. -/
def WorkerInv (camera_id : Nat) (alert_type : String) (st : WorkerState) : Prop :=
  (∀ e ∈ st.store.events, e.id < st.store.nextId) ∧
  (st.store.events.map AlertEvent.id).Nodup ∧
  (match st.active_event with
   | none => ∀ e ∈ st.store.events, isOpenFor camera_id alert_type e = false
   | some ae =>
      ae.id < st.store.nextId ∧
      (∃ e ∈ st.store.events, e.id = ae.id) ∧
      (∀ e ∈ st.store.events,
        (isOpenFor camera_id alert_type e = true ↔ e.id = ae.id)))

/-- Store states a fresh worker may be started on: primary keys bounded
by the autoincrement counter and pairwise distinct, and no row of the
worker's (camera, alert type) pair still open. -/
def GoodStart (s : EventStore) (camera_id : Nat) (alert_type : String) : Prop :=
  (∀ e ∈ s.events, e.id < s.nextId) ∧
  (s.events.map AlertEvent.id).Nodup ∧
  (∀ e ∈ s.events, isOpenFor camera_id alert_type e = false)

/-- The four ways a poll iteration can act on the store. -/
inductive Branch where
  | opens
  | updates
  | closes
  | idle
deriving DecidableEq

/-- The branch a loop iteration took, read off the store writes it
issued. -/
def branchOfWrites : List StoreWrite → Branch
  | [StoreWrite.create _] => Branch.opens
  | [StoreWrite.update _ _] => Branch.updates
  | [StoreWrite.close _ _] => Branch.closes
  | _ => Branch.idle

/-- Modelled from the spec: "`get_open(camera_id, alert_type) ->
AlertEvent | None`: the lookup used to decide open/update/close
branching". The branch the worker would take if it consulted the store
through `get_active_event` instead of its `active_event` local. -/
def branch_by_get_open (db : EventStore) (camera_id : Nat)
    (alert_type : String) (p : PollResult) : Branch :=
  if p.ok then
    if !p.detections.isEmpty then
      if (AlertEventCrud.get_active_event db camera_id alert_type).isSome then
        Branch.updates
      else Branch.opens
    else
      if (AlertEventCrud.get_active_event db camera_id alert_type).isSome then
        Branch.closes
      else Branch.idle
  else Branch.idle

theorem get_active_event_eq_find (db : EventStore) (camera_id : Nat)
    (alert_type : String) :
    AlertEventCrud.get_active_event db camera_id alert_type =
      db.events.find? (isOpenFor camera_id alert_type) := rfl

theorem updateFirst_map_eq (p : α → Bool) (f : α → α) (g : α → β)
    (hg : ∀ x, g (f x) = g x) :
    ∀ l : List α, (updateFirst p f l).map g = l.map g
  | [] => rfl
  | x :: xs => by
    by_cases h : p x
    · simp [updateFirst, h, hg]
    · simp [updateFirst, h, updateFirst_map_eq p f g hg xs]

theorem find?_split {p : α → Bool} {a : α} :
    ∀ {l : List α}, l.find? p = some a →
      ∃ l₁ l₂, l = l₁ ++ a :: l₂ ∧ ∀ x ∈ l₁, p x = false
  | [], h => by simp at h
  | x :: xs, h => by
    by_cases hx : p x
    · refine ⟨[], xs, ?_, by simp⟩
      rw [List.find?_cons_of_pos _ hx, Option.some_inj] at h
      simp [h]
    · rw [List.find?_cons_of_neg _ hx] at h
      obtain ⟨l₁, l₂, rfl, hl₁⟩ := find?_split h
      refine ⟨x :: l₁, l₂, rfl, ?_⟩
      intro y hy
      rcases List.mem_cons.1 hy with rfl | hy
      · exact Bool.eq_false_iff.2 hx
      · exact hl₁ y hy

theorem updateFirst_append_cons {p : α → Bool} {f : α → α} {a : α}
    (l₁ l₂ : List α) (h₁ : ∀ x ∈ l₁, p x = false) (ha : p a = true) :
    updateFirst p f (l₁ ++ a :: l₂) = l₁ ++ f a :: l₂ := by
  induction l₁ with
  | nil => simp [updateFirst, ha]
  | cons x xs ih =>
    have hx : p x = false := h₁ x (List.mem_cons_self x xs)
    simp only [List.cons_append, updateFirst, hx, Bool.false_eq_true, if_false,
      List.append_eq, ih (fun y hy => h₁ y (List.mem_cons_of_mem x hy))]

theorem forall_mem_of_map_eq {g : α → β} {l l' : List α}
    (h : l'.map g = l.map g) (Q : β → Prop) (hQ : ∀ x ∈ l, Q (g x)) :
    ∀ x ∈ l', Q (g x) := by
  intro x hx
  have hmem : g x ∈ l.map g := h ▸ List.mem_map_of_mem g hx
  obtain ⟨y, hy, hgy⟩ := List.mem_map.1 hmem
  exact hgy ▸ hQ y hy

theorem exists_mem_of_map_eq {g : α → β} {l l' : List α}
    (h : l'.map g = l.map g) (Q : β → Prop) (hQ : ∃ x ∈ l, Q (g x)) :
    ∃ x ∈ l', Q (g x) := by
  obtain ⟨x, hx, hQx⟩ := hQ
  have hmem : g x ∈ l'.map g := by
    rw [h]; exact List.mem_map_of_mem g hx
  obtain ⟨y, hy, hgy⟩ := List.mem_map.1 hmem
  exact ⟨y, hy, hgy ▸ hQx⟩

theorem workerInv_init {s : EventStore} {camera_id : Nat} {alert_type : String}
    (h : GoodStart s camera_id alert_type) :
    WorkerInv camera_id alert_type ⟨s, none⟩ :=
  ⟨h.1, h.2.1, h.2.2⟩

theorem workerInv_find?_isSome {camera_id : Nat} {alert_type : String}
    {s : EventStore} {ae : AlertEvent}
    (h : WorkerInv camera_id alert_type ⟨s, some ae⟩) :
    ∃ e₀, s.events.find? (fun e => e.id == ae.id) = some e₀ := by
  obtain ⟨-, -, -, ⟨e, he, heid⟩, -⟩ := h
  have : (s.events.find? (fun e => e.id == ae.id)).isSome :=
    List.find?_isSome.2 ⟨e, he, beq_iff_eq.2 heid⟩
  exact Option.isSome_iff_exists.1 this

theorem length_filter_le_one_of_nodup_map {g : α → Nat} {k : Nat} :
    ∀ {l : List α}, (l.map g).Nodup →
      (l.filter (fun x => g x == k)).length ≤ 1
  | [], _ => by simp
  | x :: xs, h => by
    rw [List.map_cons, List.nodup_cons] at h
    by_cases hx : g x = k
    · have hnil : xs.filter (fun y => g y == k) = [] := by
        rw [List.filter_eq_nil_iff]
        intro y hy hyk
        exact h.1 (hx ▸ (beq_iff_eq.1 hyk) ▸ List.mem_map_of_mem g hy)
      simp [List.filter_cons, hx, hnil]
    · have : (g x == k) = false := beq_eq_false_iff_ne.2 hx
      simpa [List.filter_cons, this] using
        length_filter_le_one_of_nodup_map h.2

theorem find?_append_cons {p : α → Bool} {a : α} (l₁ l₂ : List α)
    (h₁ : ∀ x ∈ l₁, p x = false) (ha : p a = true) :
    (l₁ ++ a :: l₂).find? p = some a := by
  induction l₁ with
  | nil => simp [List.find?_cons_of_pos _ ha]
  | cons x xs ih =>
    have hx : ¬p x = true := by
      simp [h₁ x (List.mem_cons_self x xs)]
    rw [List.cons_append, List.find?_cons_of_neg _ hx]
    exact ih (fun y hy => h₁ y (List.mem_cons_of_mem x hy))

theorem workerInv_create {camera_id : Nat} {alert_type : String}
    {s : EventStore}
    (hbound : ∀ e ∈ s.events, e.id < s.nextId)
    (hnodup : (s.events.map AlertEvent.id).Nodup)
    (hclosed : ∀ e ∈ s.events, isOpenFor camera_id alert_type e = false)
    (event : AlertEventCreate)
    (hcam : event.camera_id = camera_id) (htyp : event.alert_type = alert_type) :
    WorkerInv camera_id alert_type
      ⟨(AlertEventCrud.create_alert_event s event).1,
       some (AlertEventCrud.create_alert_event s event).2⟩ := by
  unfold AlertEventCrud.create_alert_event WorkerInv
  refine ⟨?_, ?_, ?_, ?_, ?_⟩
  · intro e he
    rcases List.mem_append.1 he with h | h
    · exact Nat.lt_succ_of_lt (hbound e h)
    · simp only [List.mem_singleton] at h
      simp [h]
  · rw [List.map_append, List.nodup_append]
    refine ⟨hnodup, List.nodup_singleton _, ?_⟩
    intro x hx hx'
    simp only [List.map_cons, List.map_nil, List.mem_singleton] at hx'
    obtain ⟨e, he, hge⟩ := List.mem_map.1 hx
    exact absurd (hge ▸ hbound e he) (by simp [hx'])
  · exact Nat.lt_succ_self _
  · exact ⟨_, List.mem_append_right _ (List.mem_singleton_self _), rfl⟩
  · intro e he
    rcases List.mem_append.1 he with h | h
    · constructor
      · intro hopen
        exact absurd hopen (by simp [hclosed e h])
      · intro hid
        exact absurd (hid ▸ hbound e h) (Nat.lt_irrefl _)
    · simp only [List.mem_singleton] at h
      subst h
      simp [isOpenFor, hcam, htyp]

theorem workerInv_update {camera_id : Nat} {alert_type : String}
    {s : EventStore} {ae : AlertEvent}
    (hinv : WorkerInv camera_id alert_type ⟨s, some ae⟩)
    (u : AlertEventUpdate) :
    WorkerInv camera_id alert_type
      ⟨(AlertEventCrud.update_alert_event s ae.id u).1, some ae⟩ := by
  obtain ⟨e₀, he₀⟩ := workerInv_find?_isSome hinv
  obtain ⟨hbound, hnodup, hae, hex, hiff⟩ := hinv
  simp only [AlertEventCrud.update_alert_event, he₀]
  have hmapPair :
      (updateFirst (fun ev => ev.id == ae.id)
        (fun ev => { ev with ai_annotation_path := u.ai_annotation_path
                             detection_results := u.detection_results })
        s.events).map (fun e => (e.id, isOpenFor camera_id alert_type e)) =
      s.events.map (fun e => (e.id, isOpenFor camera_id alert_type e)) :=
    updateFirst_map_eq (fun ev => ev.id == ae.id)
      (fun ev => { ev with ai_annotation_path := u.ai_annotation_path
                           detection_results := u.detection_results })
      (fun e => (e.id, isOpenFor camera_id alert_type e)) (fun _ => rfl) s.events
  have hmapId :
      (updateFirst (fun ev => ev.id == ae.id)
        (fun ev => { ev with ai_annotation_path := u.ai_annotation_path
                             detection_results := u.detection_results })
        s.events).map AlertEvent.id = s.events.map AlertEvent.id :=
    updateFirst_map_eq (fun ev => ev.id == ae.id)
      (fun ev => { ev with ai_annotation_path := u.ai_annotation_path
                           detection_results := u.detection_results })
      AlertEvent.id (fun _ => rfl) s.events
  refine ⟨?_, ?_, hae, ?_, ?_⟩
  · exact forall_mem_of_map_eq hmapId (fun n => n < s.nextId) hbound
  · exact hmapId ▸ hnodup
  · exact exists_mem_of_map_eq hmapId (fun n => n = ae.id) hex
  · exact forall_mem_of_map_eq hmapPair
      (fun pr => pr.2 = true ↔ pr.1 = ae.id) hiff

theorem workerInv_close {camera_id : Nat} {alert_type : String}
    {s : EventStore} {ae : AlertEvent}
    (hinv : WorkerInv camera_id alert_type ⟨s, some ae⟩) (t : Nat) :
    WorkerInv camera_id alert_type
      ⟨(AlertEventCrud.close_alert_event s ae.id t).1, none⟩ := by
  obtain ⟨e₀, he₀⟩ := workerInv_find?_isSome hinv
  obtain ⟨hbound, hnodup, hae, hex, hiff⟩ := hinv
  have he₀id : e₀.id = ae.id := by
    have h := List.find?_some he₀
    simpa using h
  obtain ⟨l₁, l₂, hsplit, hl₁⟩ := find?_split he₀
  have hupd : updateFirst (fun ev => ev.id == ae.id)
      (fun ev => { ev with end_time := some t }) s.events =
      l₁ ++ { e₀ with end_time := some t } :: l₂ := by
    rw [hsplit]
    exact updateFirst_append_cons l₁ l₂ hl₁ (beq_iff_eq.2 he₀id)
  have hmapId : (updateFirst (fun ev => ev.id == ae.id)
      (fun ev => { ev with end_time := some t }) s.events).map AlertEvent.id =
      s.events.map AlertEvent.id :=
    updateFirst_map_eq (fun ev => ev.id == ae.id)
      (fun ev => { ev with end_time := some t }) AlertEvent.id
      (fun _ => rfl) s.events
  have hnotin : e₀.id ∉ l₂.map AlertEvent.id := by
    rw [hsplit, List.map_append, List.map_cons, List.nodup_append] at hnodup
    exact (List.nodup_cons.1 hnodup.2.1).1
  simp only [AlertEventCrud.close_alert_event, he₀]
  refine ⟨?_, ?_, ?_⟩
  · exact forall_mem_of_map_eq hmapId (fun n => n < s.nextId) hbound
  · exact hmapId ▸ hnodup
  · intro e he
    rw [hupd] at he
    rcases List.mem_append.1 he with h | h
    · have hmem : e ∈ s.events := by
        rw [hsplit]; exact List.mem_append_left _ h
      have hne : e.id ≠ ae.id := by
        intro hid
        exact absurd (beq_iff_eq.2 hid) (by simp [hl₁ e h])
      rcases Bool.eq_false_or_eq_true (isOpenFor camera_id alert_type e) with
        hb | hb
      · exact absurd ((hiff e hmem).1 hb) hne
      · exact hb
    · rcases List.mem_cons.1 h with rfl | h
      · simp [isOpenFor]
      · have hne : e.id ≠ ae.id := by
          intro hid
          exact hnotin (he₀id ▸ hid ▸ List.mem_map_of_mem AlertEvent.id h)
        rcases Bool.eq_false_or_eq_true (isOpenFor camera_id alert_type e) with
          hb | hb
        · have hmem : e ∈ s.events := by
            rw [hsplit]
            exact List.mem_append_right _ (List.mem_cons_of_mem _ h)
          exact absurd ((hiff e hmem).1 hb) hne
        · exact hb

theorem polling_loop_step_inv {camera_id : Nat} {alert_type : String}
    {st : WorkerState} (p : PollResult)
    (h : WorkerInv camera_id alert_type st) :
    WorkerInv camera_id alert_type
      (polling_loop_step camera_id alert_type st p).1 := by
  obtain ⟨store, active⟩ := st
  by_cases hok : p.ok
  · by_cases hde : p.detections.isEmpty
    · cases active with
      | none =>
        simpa [polling_loop_step, hok, hde] using h
      | some ae =>
        simpa [polling_loop_step, hok, hde] using
          workerInv_close h p.now
    · cases active with
      | none =>
        obtain ⟨hbound, hnodup, hclosed⟩ := h
        simpa [polling_loop_step, hok, hde] using
          workerInv_create hbound hnodup hclosed
            { camera_id := camera_id, alert_type := alert_type,
              start_time := p.now,
              ai_annotation_path := p.ai_annotation_path,
              detection_results := some p.detections } rfl rfl
      | some ae =>
        simpa [polling_loop_step, hok, hde] using
          workerInv_update h
            { ai_annotation_path := p.ai_annotation_path
              detection_results := some p.detections }
  · simpa [polling_loop_step, hok] using h

theorem polling_run_inv {camera_id : Nat} {alert_type : String} :
    ∀ (ps : List PollResult) {st : WorkerState},
      WorkerInv camera_id alert_type st →
      WorkerInv camera_id alert_type (polling_run camera_id alert_type st ps)
  | [], _, h => h
  | p :: ps, _, h =>
    polling_run_inv ps (polling_loop_step_inv p h)

theorem countOpen_le_one_of_inv {camera_id : Nat} {alert_type : String}
    {st : WorkerState} (h : WorkerInv camera_id alert_type st) :
    countOpen st.store camera_id alert_type ≤ 1 := by
  obtain ⟨store, act⟩ := st
  obtain ⟨hbound, hnodup, hact⟩ := h
  cases act with
  | none =>
    have hnil : store.events.filter (isOpenFor camera_id alert_type) = [] :=
      List.filter_eq_nil_iff.2 (fun e he => by simp [hact e he])
    simp [countOpen, hnil]
  | some ae =>
    obtain ⟨-, -, hiff⟩ := hact
    have hcongr : store.events.filter (isOpenFor camera_id alert_type) =
        store.events.filter (fun e => e.id == ae.id) :=
      List.filter_congr (fun e he => by
        rw [Bool.eq_iff_iff]
        constructor
        · intro hb
          exact beq_iff_eq.2 ((hiff e he).1 hb)
        · intro hb
          exact (hiff e he).2 (beq_iff_eq.1 hb))
    rw [countOpen, hcongr]
    exact length_filter_le_one_of_nodup_map hnodup

theorem branch_agrees {camera_id : Nat} {alert_type : String}
    {st : WorkerState} (h : WorkerInv camera_id alert_type st)
    (p : PollResult) :
    branchOfWrites (polling_loop_step camera_id alert_type st p).2 =
      branch_by_get_open st.store camera_id alert_type p := by
  obtain ⟨store, act⟩ := st
  obtain ⟨hbound, hnodup, hact⟩ := h
  by_cases hok : p.ok
  · by_cases hde : p.detections.isEmpty
    · cases act with
      | none =>
        have hnone : AlertEventCrud.get_active_event store camera_id alert_type
            = none := by
          rw [get_active_event_eq_find, List.find?_eq_none]
          intro e he
          simp [hact e he]
        simp [polling_loop_step, branchOfWrites, branch_by_get_open,
          hok, hde, hnone]
      | some ae =>
        obtain ⟨-, ⟨e, he, heid⟩, hiff⟩ := hact
        have hsome : (AlertEventCrud.get_active_event store camera_id
            alert_type).isSome := by
          rw [get_active_event_eq_find]
          exact List.find?_isSome.2 ⟨e, he, (hiff e he).2 heid⟩
        simp [polling_loop_step, branchOfWrites, branch_by_get_open,
          hok, hde, hsome]
    · cases act with
      | none =>
        have hnone : AlertEventCrud.get_active_event store camera_id alert_type
            = none := by
          rw [get_active_event_eq_find, List.find?_eq_none]
          intro e he
          simp [hact e he]
        simp [polling_loop_step, branchOfWrites, branch_by_get_open,
          hok, hde, hnone]
      | some ae =>
        obtain ⟨-, ⟨e, he, heid⟩, hiff⟩ := hact
        have hsome : (AlertEventCrud.get_active_event store camera_id
            alert_type).isSome := by
          rw [get_active_event_eq_find]
          exact List.find?_isSome.2 ⟨e, he, (hiff e he).2 heid⟩
        simp [polling_loop_step, branchOfWrites, branch_by_get_open,
          hok, hde, hsome]
  · simp [polling_loop_step, branchOfWrites, branch_by_get_open, hok]

/-- C1: for every sequence of poll results processed by a single polling
worker for a fixed (camera_id, alert_type) pair, started on a store with
no open event for that pair, at every point of the run (i.e. after every
poll sequence) at most one AlertEvent row with a null end_time exists
for that pair: opens happen only with no open event, and a close clears
the open reference before any further open. -/
theorem at_most_one_open_event (camera_id : Nat) (alert_type : String)
    (s : EventStore) (polls : List PollResult)
    (h : GoodStart s camera_id alert_type) :
    countOpen (polling_run camera_id alert_type ⟨s, none⟩ polls).store
      camera_id alert_type ≤ 1 :=
  countOpen_le_one_of_inv (polling_run_inv polls (workerInv_init h))

theorem at_most_one_open_event_witness :
    GoodStart ⟨[], 0⟩ 1 "human_detection" ∧
    countOpen (polling_run 1 "human_detection" ⟨⟨[], 0⟩, none⟩
        [⟨true, ["person"], some "a.jpg", some 9, 2⟩,
         ⟨true, ["person"], some "b.jpg", none, 3⟩,
         ⟨true, [], none, none, 4⟩,
         ⟨true, ["person"], none, none, 5⟩]).store 1 "human_detection" ≤ 1 :=
  ⟨⟨by simp, by simp, by simp⟩,
   at_most_one_open_event 1 "human_detection" ⟨[], 0⟩
     [⟨true, ["person"], some "a.jpg", some 9, 2⟩,
      ⟨true, ["person"], some "b.jpg", none, 3⟩,
      ⟨true, [], none, none, 4⟩,
      ⟨true, ["person"], none, none, 5⟩]
     ⟨by simp, by simp, by simp⟩⟩

/-- C2: for a poll sequence [no-detection, detection, detection,
no-detection] processed by one polling worker starting with no open
event, the store receives exactly one create call (on poll 2), exactly
one update call (on poll 3, against the created row), exactly one close
call (on poll 4), and no other writes. -/
theorem quiet_detect_detect_quiet_trace (camera_id : Nat)
    (alert_type : String) (s : EventStore) (p₁ p₂ p₃ p₄ : PollResult)
    (h₁ : p₁.ok = true) (h₂ : p₂.ok = true) (h₃ : p₃.ok = true)
    (h₄ : p₄.ok = true)
    (hd₁ : p₁.detections = []) (hd₂ : p₂.detections ≠ [])
    (hd₃ : p₃.detections ≠ []) (hd₄ : p₄.detections = []) :
    polling_log camera_id alert_type ⟨s, none⟩ 1 [p₁, p₂, p₃, p₄] =
      [(2, StoreWrite.create
          { camera_id := camera_id, alert_type := alert_type,
            start_time := p₂.now, ai_annotation_path := p₂.ai_annotation_path,
            detection_results := some p₂.detections }),
       (3, StoreWrite.update s.nextId
          { ai_annotation_path := p₃.ai_annotation_path,
            detection_results := some p₃.detections }),
       (4, StoreWrite.close s.nextId p₄.now)] := by
  have hde₁ : p₁.detections.isEmpty = true := by simp [hd₁]
  have hde₄ : p₄.detections.isEmpty = true := by simp [hd₄]
  have hde₂ : p₂.detections.isEmpty = false := by
    rcases List.exists_cons_of_ne_nil hd₂ with ⟨b, L, hbl⟩
    simp [hbl]
  have hde₃ : p₃.detections.isEmpty = false := by
    rcases List.exists_cons_of_ne_nil hd₃ with ⟨b, L, hbl⟩
    simp [hbl]
  simp [polling_log, polling_loop_step, h₁, h₂, h₃, h₄,
    hde₁, hde₂, hde₃, hde₄, AlertEventCrud.create_alert_event]

theorem quiet_detect_detect_quiet_trace_witness :
    polling_log 1 "human_detection" ⟨⟨[], 0⟩, none⟩ 1
        [⟨true, [], none, none, 1⟩,
         ⟨true, ["person"], some "f2.jpg", none, 2⟩,
         ⟨true, ["person"], some "f3.jpg", none, 3⟩,
         ⟨true, [], none, none, 4⟩] =
      [(2, StoreWrite.create
          ⟨1, "human_detection", 2, some "f2.jpg", some ["person"]⟩),
       (3, StoreWrite.update 0 ⟨some "f3.jpg", some ["person"]⟩),
       (4, StoreWrite.close 0 4)] :=
  quiet_detect_detect_quiet_trace 1 "human_detection" ⟨[], 0⟩
    ⟨true, [], none, none, 1⟩ ⟨true, ["person"], some "f2.jpg", none, 2⟩
    ⟨true, ["person"], some "f3.jpg", none, 3⟩ ⟨true, [], none, none, 4⟩
    rfl rfl rfl rfl rfl (by decide) (by decide) rfl

/-- C7: at every poll iteration of a worker started on a store with no
open event for its pair, the branch the iteration takes (read off its
store writes) equals the branch that consulting the store through
`get_active_event` would choose, for every reachable worker state. -/
theorem branch_decided_by_store_lookup (camera_id : Nat)
    (alert_type : String) (s : EventStore) (polls : List PollResult)
    (p : PollResult) (h : GoodStart s camera_id alert_type) :
    branchOfWrites
        (polling_loop_step camera_id alert_type
          (polling_run camera_id alert_type ⟨s, none⟩ polls) p).2 =
      branch_by_get_open
        (polling_run camera_id alert_type ⟨s, none⟩ polls).store
        camera_id alert_type p :=
  branch_agrees (polling_run_inv polls (workerInv_init h)) p

theorem branch_decided_by_store_lookup_witness :
    GoodStart ⟨[], 0⟩ 1 "human_detection" ∧
    branchOfWrites (polling_loop_step 1 "human_detection"
        (polling_run 1 "human_detection" ⟨⟨[], 0⟩, none⟩
          [⟨true, ["person"], none, none, 1⟩]) ⟨true, [], none, none, 2⟩).2 =
      branch_by_get_open
        (polling_run 1 "human_detection" ⟨⟨[], 0⟩, none⟩
          [⟨true, ["person"], none, none, 1⟩]).store 1 "human_detection"
        ⟨true, [], none, none, 2⟩ :=
  ⟨⟨by simp, by simp, by simp⟩,
   branch_decided_by_store_lookup 1 "human_detection" ⟨[], 0⟩
     [⟨true, ["person"], none, none, 1⟩] ⟨true, [], none, none, 2⟩
     ⟨by simp, by simp, by simp⟩⟩

/-- C4: a start request for a (camera_id, model_name) key already present
in the thread registry is a no-op: both registries are unchanged and the
`false` component records that `thread.start()` was never reached, so no
second worker (and hence no duplicate event stream) is produced. -/
theorem start_alert_polling_idempotent (reg : PollRegistry)
    (camera_id : Nat) (model_name : String)
    (h : reg.threads.contains (camera_id, model_name) = true) :
    start_alert_polling reg camera_id model_name = (reg, false) := by
  have hm : (camera_id, model_name) ∈ reg.threads := by simpa using h
  simp [start_alert_polling, hm]

theorem start_alert_polling_idempotent_witness :
    (PollRegistry.mk [(1, "person")] [((1, "person"), false)]).threads.contains
        (1, "person") = true ∧
    start_alert_polling ⟨[(1, "person")], [((1, "person"), false)]⟩ 1 "person" =
      (⟨[(1, "person")], [((1, "person"), false)]⟩, false) :=
  ⟨by decide,
   start_alert_polling_idempotent ⟨[(1, "person")], [((1, "person"), false)]⟩
     1 "person" (by decide)⟩

/-- C10: a stop request for a (camera_id, model_name) key with no live
thread is a no-op: both the thread registry and the stop-flag registry
are left exactly unchanged. -/
theorem stop_alert_polling_noop (reg : PollRegistry) (camera_id : Nat)
    (model_name : String)
    (h : reg.threads.contains (camera_id, model_name) = false) :
    stop_alert_polling reg camera_id model_name = reg := by
  have hm : (camera_id, model_name) ∉ reg.threads := by simpa using h
  simp [stop_alert_polling, hm]

theorem stop_alert_polling_noop_witness :
    (PollRegistry.mk [(2, "person")] [((2, "person"), true)]).threads.contains
        (1, "person") = false ∧
    stop_alert_polling ⟨[(2, "person")], [((2, "person"), true)]⟩ 1 "person" =
      ⟨[(2, "person")], [((2, "person"), true)]⟩ :=
  ⟨by decide,
   stop_alert_polling_noop ⟨[(2, "person")], [((2, "person"), true)]⟩
     1 "person" (by decide)⟩

/-- C5: an attach request naming a missing camera or a missing alert
engine fails with HTTP 404 and has no side effects: the database
(including association rows and every engine field) and both polling
registries are returned exactly unchanged, and no thread is started. -/
theorem add_alert_engine_to_camera_not_found (db : AppDb)
    (reg : PollRegistry) (camera_id : Nat) (alert_engine_id : Nat)
    (h : db.cameras.find? (fun c => c.id == camera_id) = none ∨
         AlertEngineCrud.get_alert_engine db alert_engine_id = none) :
    AlertEngineRoutes.add_alert_engine_to_camera db reg camera_id
      alert_engine_id = (db, reg, ApiResult.httpError 404) := by
  rcases h with h | h
  · simp [AlertEngineRoutes.add_alert_engine_to_camera,
      AlertEngineCrud.add_alert_engine_to_camera, h]
  · cases hc : db.cameras.find? (fun c => c.id == camera_id) with
    | none =>
      simp [AlertEngineRoutes.add_alert_engine_to_camera,
        AlertEngineCrud.add_alert_engine_to_camera, hc, h]
    | some c =>
      simp [AlertEngineRoutes.add_alert_engine_to_camera,
        AlertEngineCrud.add_alert_engine_to_camera, hc, h]

theorem add_alert_engine_to_camera_not_found_witness :
    ((AppDb.mk [⟨1, "cam"⟩] [] [] 0).cameras.find? (fun c => c.id == 1) = none ∨
      AlertEngineCrud.get_alert_engine ⟨[⟨1, "cam"⟩], [], [], 0⟩ 7 = none) ∧
    AlertEngineRoutes.add_alert_engine_to_camera ⟨[⟨1, "cam"⟩], [], [], 0⟩
        ⟨[], []⟩ 1 7 =
      (⟨[⟨1, "cam"⟩], [], [], 0⟩, ⟨[], []⟩, ApiResult.httpError 404) :=
  ⟨Or.inr rfl,
   add_alert_engine_to_camera_not_found ⟨[⟨1, "cam"⟩], [], [], 0⟩ ⟨[], []⟩
     1 7 (Or.inr rfl)⟩

/-- C6: a create request whose name collides with an existing engine
fails with HTTP 400 and leaves the database unchanged (no record
created); a create request with a fresh name succeeds and appends one
record carrying the requested name, type and config, whose `is_active`
is forced to `false` when the type is human_detection regardless of the
requested value, and equals the requested value otherwise. -/
theorem create_alert_engine_spec (db : AppDb)
    (r₁ r₂ : AlertEngineCreate)
    (hdup : (AlertEngineCrud.get_alert_engine_by_name db r₁.name).isSome = true)
    (hfresh :
      (AlertEngineCrud.get_alert_engine_by_name db r₂.name).isSome = false) :
    AlertEngineRoutes.create_alert_engine db r₁ =
        (db, ApiResult.httpError 400) ∧
    (∃ e : AlertEngineRec,
      AlertEngineRoutes.create_alert_engine db r₂ =
        ({ db with engines := db.engines ++ [e],
                   nextEngineId := db.nextEngineId + 1 }, ApiResult.ok e) ∧
      e.name = r₂.name ∧ e.type = r₂.type ∧ e.config = r₂.config ∧
      e.is_active =
        (if r₂.type = "human_detection" then false else r₂.is_active)) := by
  constructor
  · simp [AlertEngineRoutes.create_alert_engine, hdup]
  · by_cases ht : r₂.type = "human_detection"
    · refine ⟨⟨db.nextEngineId, r₂.name, r₂.type, r₂.config, false⟩, ?_,
        rfl, rfl, rfl, by simp [ht]⟩
      simp [AlertEngineRoutes.create_alert_engine,
        AlertEngineCrud.create_alert_engine, hfresh, ht]
    · refine ⟨⟨db.nextEngineId, r₂.name, r₂.type, r₂.config, r₂.is_active⟩, ?_,
        rfl, rfl, rfl, by simp [ht]⟩
      have ht' : (r₂.type == "human_detection") = false :=
        beq_eq_false_iff_ne.2 ht
      simp [AlertEngineRoutes.create_alert_engine,
        AlertEngineCrud.create_alert_engine, hfresh, ht']

theorem create_alert_engine_spec_witness :
    (AlertEngineCrud.get_alert_engine_by_name
        ⟨[], [⟨1, "dup", "human_in_zone", none, true⟩], [], 2⟩
        (AlertEngineCreate.mk "dup" "human_in_zone" none true).name).isSome
      = true ∧
    (AlertEngineCrud.get_alert_engine_by_name
        ⟨[], [⟨1, "dup", "human_in_zone", none, true⟩], [], 2⟩
        (AlertEngineCreate.mk "fresh" "human_detection" none true).name).isSome
      = false ∧
    (AlertEngineRoutes.create_alert_engine
        ⟨[], [⟨1, "dup", "human_in_zone", none, true⟩], [], 2⟩
        ⟨"dup", "human_in_zone", none, true⟩ =
      (⟨[], [⟨1, "dup", "human_in_zone", none, true⟩], [], 2⟩,
       ApiResult.httpError 400) ∧
    (∃ e : AlertEngineRec,
      AlertEngineRoutes.create_alert_engine
          ⟨[], [⟨1, "dup", "human_in_zone", none, true⟩], [], 2⟩
          ⟨"fresh", "human_detection", none, true⟩ =
        (⟨[], [⟨1, "dup", "human_in_zone", none, true⟩, e], [], 3⟩,
         ApiResult.ok e) ∧
      e.name = "fresh" ∧ e.type = "human_detection" ∧ e.config = none ∧
      e.is_active = (if ("human_detection" : String) = "human_detection"
        then false else true))) :=
  ⟨by decide, by decide,
   create_alert_engine_spec ⟨[], [⟨1, "dup", "human_in_zone", none, true⟩], [], 2⟩
     ⟨"dup", "human_in_zone", none, true⟩ ⟨"fresh", "human_detection", none, true⟩
     (by decide) (by decide)⟩

/-- C8: `close_alert_event eid t` on a store holding a row with id `eid`
rewrites exactly that (first matching) row to carry `end_time = some t`,
leaving every other row in place — with no guard on the previous
`end_time`, so re-closing an already-closed row simply re-sets its end
timestamp to the newly supplied value — and returns the closed row; on a
store with no row of id `eid` it is a no-op returning `none`. -/
theorem close_alert_event_spec (s₁ s₂ : EventStore)
    (eid₁ eid₂ t₁ t₂ : Nat) (e₁ : AlertEvent)
    (hfind : s₁.events.find? (fun e => e.id == eid₁) = some e₁)
    (hmiss : s₂.events.find? (fun e => e.id == eid₂) = none) :
    (∃ l₁ l₂,
      s₁.events = l₁ ++ e₁ :: l₂ ∧
      (∀ x ∈ l₁, (x.id == eid₁) = false) ∧
      AlertEventCrud.close_alert_event s₁ eid₁ t₁ =
        ({ s₁ with events := l₁ ++ { e₁ with end_time := some t₁ } :: l₂ },
         some { e₁ with end_time := some t₁ })) ∧
    AlertEventCrud.close_alert_event s₂ eid₂ t₂ = (s₂, none) := by
  constructor
  · obtain ⟨l₁, l₂, hsplit, hl₁⟩ := find?_split hfind
    have he : (e₁.id == eid₁) = true := by
      have := List.find?_some hfind
      simpa using this
    refine ⟨l₁, l₂, hsplit, hl₁, ?_⟩
    simp only [AlertEventCrud.close_alert_event, hfind]
    rw [hsplit, updateFirst_append_cons l₁ l₂ hl₁ he]
  · simp [AlertEventCrud.close_alert_event, hmiss]

theorem close_alert_event_spec_witness :
    ((EventStore.mk [⟨0, 1, "human_detection", 1, some 9, none, none⟩] 1).events.find?
        (fun e => e.id == 0) =
      some ⟨0, 1, "human_detection", 1, some 9, none, none⟩) ∧
    ((EventStore.mk [] 0).events.find? (fun e => e.id == 3) = none) ∧
    ((∃ l₁ l₂,
      (EventStore.mk [⟨0, 1, "human_detection", 1, some 9, none, none⟩] 1).events =
        l₁ ++ ⟨0, 1, "human_detection", 1, some 9, none, none⟩ :: l₂ ∧
      (∀ x ∈ l₁, (x.id == 0) = false) ∧
      AlertEventCrud.close_alert_event
          ⟨[⟨0, 1, "human_detection", 1, some 9, none, none⟩], 1⟩ 0 5 =
        (⟨l₁ ++ ⟨0, 1, "human_detection", 1, some 5, none, none⟩ :: l₂, 1⟩,
         some ⟨0, 1, "human_detection", 1, some 5, none, none⟩)) ∧
    AlertEventCrud.close_alert_event ⟨[], 0⟩ 3 7 = (⟨[], 0⟩, none)) :=
  ⟨rfl, rfl,
   close_alert_event_spec
     ⟨[⟨0, 1, "human_detection", 1, some 9, none, none⟩], 1⟩ ⟨[], 0⟩
     0 3 5 7 ⟨0, 1, "human_detection", 1, some 9, none, none⟩ rfl rfl⟩

/-- C9: toggling an existing alert engine twice restores the whole
database — in particular the engine's `is_active` flag returns to its
original value and its name, type and config are untouched — and the
second toggle returns the original record; toggling a non-existent id
returns `none` and changes nothing. -/
theorem toggle_alert_engine_twice (db₁ db₂ : AppDb) (id₁ id₂ : Nat)
    (e₁ : AlertEngineRec)
    (hget : AlertEngineCrud.get_alert_engine db₁ id₁ = some e₁)
    (hmiss : AlertEngineCrud.get_alert_engine db₂ id₂ = none) :
    AlertEngineCrud.toggle_alert_engine_active
        (AlertEngineCrud.toggle_alert_engine_active db₁ id₁).1 id₁ =
      (db₁, some e₁) ∧
    AlertEngineCrud.toggle_alert_engine_active db₂ id₂ = (db₂, none) := by
  constructor
  · obtain ⟨l₁, l₂, hsplit, hl₁⟩ := find?_split hget
    have he : (e₁.id == id₁) = true := by
      have := List.find?_some hget
      simpa using this
    obtain ⟨eid, ename, etype, ecfg, eact⟩ := e₁
    have h1 : AlertEngineCrud.toggle_alert_engine_active db₁ id₁ =
        ({ db₁ with engines :=
            l₁ ++ (⟨eid, ename, etype, ecfg, !eact⟩ : AlertEngineRec) :: l₂ },
         some ⟨eid, ename, etype, ecfg, !eact⟩) := by
      simp only [AlertEngineCrud.toggle_alert_engine_active, hget]
      rw [AlertEngineCrud.get_alert_engine] at hget
      rw [hsplit, updateFirst_append_cons l₁ l₂ hl₁ he]
    have hget2 : AlertEngineCrud.get_alert_engine
        ({ db₁ with engines :=
            l₁ ++ (⟨eid, ename, etype, ecfg, !eact⟩ : AlertEngineRec) :: l₂ })
        id₁ = some ⟨eid, ename, etype, ecfg, !eact⟩ := by
      rw [AlertEngineCrud.get_alert_engine]
      exact find?_append_cons l₁ l₂ hl₁ he
    rw [h1]
    simp only [AlertEngineCrud.toggle_alert_engine_active, hget2]
    have he2 : ((⟨eid, ename, etype, ecfg, !eact⟩ : AlertEngineRec).id == id₁)
        = true := he
    rw [updateFirst_append_cons l₁ l₂ hl₁ he2]
    simp only [Bool.not_not]
    rw [← hsplit]
  · simp [AlertEngineCrud.toggle_alert_engine_active, hmiss]

theorem toggle_alert_engine_twice_witness :
    (AlertEngineCrud.get_alert_engine
        ⟨[], [⟨1, "det", "human_detection", some "cfg", true⟩], [], 2⟩ 1 =
      some ⟨1, "det", "human_detection", some "cfg", true⟩) ∧
    (AlertEngineCrud.get_alert_engine ⟨[], [], [], 0⟩ 5 = none) ∧
    (AlertEngineCrud.toggle_alert_engine_active
        (AlertEngineCrud.toggle_alert_engine_active
          ⟨[], [⟨1, "det", "human_detection", some "cfg", true⟩], [], 2⟩ 1).1 1 =
      (⟨[], [⟨1, "det", "human_detection", some "cfg", true⟩], [], 2⟩,
       some ⟨1, "det", "human_detection", some "cfg", true⟩) ∧
    AlertEngineCrud.toggle_alert_engine_active ⟨[], [], [], 0⟩ 5 =
      (⟨[], [], [], 0⟩, none)) :=
  ⟨rfl, rfl,
   toggle_alert_engine_twice
     ⟨[], [⟨1, "det", "human_detection", some "cfg", true⟩], [], 2⟩
     ⟨[], [], [], 0⟩ 1 5 ⟨1, "det", "human_detection", some "cfg", true⟩
     rfl rfl⟩

/-- C3 (evaluation at the failing input): the database holds camera 1,
the active human_detection engine 1 attached to it, and the registry
holds a live worker for (1, "person") whose stop flag is `false`.
Toggling engine 1 flips and commits `is_active` to `false`, but the
handler then evaluates `alert_engine_crud.get_cameras_by_alert_engine`,
a function `app/db/crud/alert_engine.py` does not define, so the request
dies with an uncaught `AttributeError` (HTTP 500): contrary to the
claim, no worker's stop flag is set and no thread-registry entry is
removed — the registry comes back exactly unchanged. -/
theorem toggle_inactive_does_not_stop_workers :
    AlertEngineRoutes.toggle_alert_engine_active
        ⟨[⟨1, "cam"⟩], [⟨1, "det", "human_detection", none, true⟩], [(1, 1)], 2⟩
        ⟨[(1, "person")], [((1, "person"), false)]⟩ 1 =
      (⟨[⟨1, "cam"⟩], [⟨1, "det", "human_detection", none, false⟩], [(1, 1)], 2⟩,
       ⟨[(1, "person")], [((1, "person"), false)]⟩,
       ApiResult.httpError 500) := by
  decide

end Atriva
